import Mathlib

/-!
Verification of the x-v2-server MCP tool dispatcher and the credential-scoped
TwitterService client lifecycle.

The development shallowly embeds the two source variants:
* the per-call-credential variant (`TwitterService` taking a `Config` per call,
  dispatched by the `server.tool` handlers that pass `config || {}`), and
* the static-credential variant (`TwitterService.getClient` reading four
  environment secrets and caching `this.client`).

Remote interaction is modelled by an `Oracle` giving each remote verb's
response, and every operation run records the remote calls it issues in a
trace, so that theorems can speak about which remote requests were made and
with which arguments.
-/

namespace XServer

/-! ### JSON-like values and JSON.stringify -/

/-- JSON-ish runtime values. `jsError` stands for a JavaScript `Error` object
(which has no enumerable own properties, so `JSON.stringify` renders it as an
empty object). -/
inductive Value where
  | null
  | bool (b : Bool)
  | num (n : Int)
  | str (s : String)
  | arr (elems : List Value)
  | obj (fields : List (String × Value))
  | jsError (message : String)

/-- JSON string escaping for one character. -/
def escChar (c : Char) : String :=
  if c = '"' then "\\\""
  else if c = '\\' then "\\\\"
  else if c = '\n' then "\\n"
  else if c = '\r' then "\\r"
  else if c = '\t' then "\\t"
  else String.singleton c

/-- JSON string escaping. -/
def escString (s : String) : String :=
  s.data.foldl (fun acc c => acc ++ escChar c) ""

/-- A JSON string literal: quotes around the escaped content. -/
def jsQuote (s : String) : String := "\"" ++ escString s ++ "\""

/-- `n` spaces, for pretty-printing indentation. -/
def nSpaces (n : Nat) : String := String.mk (List.replicate n ' ')

mutual

/-- `JSON.stringify(v)` (compact form, as used inside `getUserTweets`). -/
def stringifyCompact : Value → String
  | Value.null => "null"
  | Value.bool b => if b then "true" else "false"
  | Value.num n => toString n
  | Value.str s => jsQuote s
  | Value.jsError _ => "\x7b\x7d"
  | Value.arr es => "[" ++ compactElems es ++ "]"
  | Value.obj fs => "\x7b" ++ compactFields fs ++ "\x7d"

/-- Comma-joined compact serialization of array elements. -/
def compactElems : List Value → String
  | [] => ""
  | [v] => stringifyCompact v
  | v :: vs => stringifyCompact v ++ "," ++ compactElems vs

/-- Comma-joined compact serialization of object fields. -/
def compactFields : List (String × Value) → String
  | [] => ""
  | [(k, v)] => jsQuote k ++ ":" ++ stringifyCompact v
  | (k, v) :: fs => jsQuote k ++ ":" ++ stringifyCompact v ++ "," ++ compactFields fs

end

mutual

/-- `JSON.stringify(v, null, 2)` at indentation level `ind`. -/
def prettyAux : Nat → Value → String
  | _, Value.null => "null"
  | _, Value.bool b => if b then "true" else "false"
  | _, Value.num n => toString n
  | _, Value.str s => jsQuote s
  | _, Value.jsError _ => "\x7b\x7d"
  | _, Value.arr [] => "[]"
  | ind, Value.arr (e :: es) =>
    "[\n" ++ prettyElems (ind + 2) (e :: es) ++ "\n" ++ nSpaces ind ++ "]"
  | _, Value.obj [] => "\x7b\x7d"
  | ind, Value.obj (f :: fs) =>
    "\x7b\n" ++ prettyFields (ind + 2) (f :: fs) ++ "\n" ++ nSpaces ind ++ "\x7d"

/-- Pretty-printed array elements, each on its own indented line. -/
def prettyElems : Nat → List Value → String
  | _, [] => ""
  | ind, [e] => nSpaces ind ++ prettyAux ind e
  | ind, e :: e2 :: es => nSpaces ind ++ prettyAux ind e ++ ",\n" ++ prettyElems ind (e2 :: es)

/-- Pretty-printed object fields, each on its own indented line. -/
def prettyFields : Nat → List (String × Value) → String
  | _, [] => ""
  | ind, [(k, v)] => nSpaces ind ++ jsQuote k ++ ": " ++ prettyAux ind v
  | ind, (k, v) :: f :: fs =>
    nSpaces ind ++ jsQuote k ++ ": " ++ prettyAux ind v ++ ",\n" ++ prettyFields ind (f :: fs)

end

/-- `JSON.stringify(v, null, 2)` as used by every tool handler. -/
def stringifyPretty (v : Value) : String := prettyAux 0 v

/-! ### JavaScript truthiness for the string-typed inputs the source tests -/

/-- JavaScript truthiness of a string: the empty string is falsy. -/
def strTruthy (s : String) : Bool := !s.data.isEmpty

/-- JavaScript truthiness of a possibly-absent string field (`undefined` and
`""` are both falsy, matching `!config.accessToken` and `if (imageBase64)`). -/
def optStrTruthy : Option String → Bool
  | none => false
  | some s => strTruthy s

/-! ### Credentials, clients, and the two getClient variants -/

/-- Per-call credential configuration (`type Config` in the per-call variant). -/
structure Config where
  accessToken : Option String
  refreshToken : Option String
deriving DecidableEq

/-- What a constructed client is bound to: a per-call bearer token or the
static four environment secrets. -/
inductive ClientAuth where
  | bearer (token : String)
  | oauth1 (appKey appSecret accessToken accessSecret : String)
deriving DecidableEq

/-- A `TwitterApi` client handle. The `id` field gives each constructed handle
a distinct identity (reference identity of `new TwitterApi(...)`). -/
structure TwitterApi where
  id : Nat
  auth : ClientAuth
deriving DecidableEq

/-- The mutable singleton state of `TwitterService`: the `client` field plus
bookkeeping for fresh handle identities and constructor-call counting. -/
structure SvcState where
  client : Option TwitterApi
  nextId : Nat
  ctorCalls : Nat
deriving DecidableEq

/-- The error thrown by the per-call `getClient` when the token is missing:
`new Error("Access token is required")`. -/
def accessTokenRequired : Value := Value.jsError "Access token is required"

/-- Per-call-variant `TwitterService.getClient(config)`:
throws when `!config.accessToken`, otherwise constructs a fresh client with
`new TwitterApi(config.accessToken)` and assigns `this.client`. -/
def getClient (st : SvcState) (config : Config) : Except Value (TwitterApi × SvcState) :=
  if optStrTruthy config.accessToken = false then
    Except.error accessTokenRequired
  else
    let c : TwitterApi := ⟨st.nextId, ClientAuth.bearer (config.accessToken.getD "")⟩
    Except.ok (c, ⟨some c, st.nextId + 1, st.ctorCalls + 1⟩)

/-- The four environment secrets read by the static-credential variant. -/
structure Env where
  TWITTER_API_KEY : Option String
  TWITTER_API_KEY_SECRET : Option String
  TWITTER_ACCESS_TOKEN : Option String
  TWITTER_ACCESS_TOKEN_SECRET : Option String

/-- The error thrown by the static-variant `getClient` when any secret is
missing. -/
def credentialsNotConfigured : Value :=
  Value.jsError "Twitter credentials are not properly configured in environment variables"

/-- Static-variant `TwitterService.getClient()`: reuses `this.client` when it
is set; otherwise checks the four environment secrets, throws if any is falsy,
and constructs and caches a fresh client. -/
def staticGetClient (env : Env) (st : SvcState) : Except Value (TwitterApi × SvcState) :=
  match st.client with
  | some c => Except.ok (c, st)
  | none =>
    if (optStrTruthy env.TWITTER_API_KEY && optStrTruthy env.TWITTER_API_KEY_SECRET &&
        optStrTruthy env.TWITTER_ACCESS_TOKEN &&
        optStrTruthy env.TWITTER_ACCESS_TOKEN_SECRET) = false then
      Except.error credentialsNotConfigured
    else
      let c : TwitterApi := ⟨st.nextId, ClientAuth.oauth1
        (env.TWITTER_API_KEY.getD "") (env.TWITTER_API_KEY_SECRET.getD "")
        (env.TWITTER_ACCESS_TOKEN.getD "") (env.TWITTER_ACCESS_TOKEN_SECRET.getD "")⟩
      Except.ok (c, ⟨some c, st.nextId + 1, st.ctorCalls + 1⟩)

/-! ### Remote calls, oracle, and the operation monad -/

/-- The categories a timeline request can exclude. -/
inductive Excl where
  | retweets
  | replies
deriving DecidableEq

/-- Options object passed to `client.v2.userTimeline`. -/
structure TimelineOptions where
  exclude : List Excl
  max_results : Int
  pagination_token : Option String
deriving DecidableEq

/-- Options object passed to `client.v2.userMentionTimeline`. -/
structure MentionOptions where
  max_results : Int
  pagination_token : Option String
deriving DecidableEq

/-- Image MIME types supported by `uploadMedia` (`EUploadMimeType`). -/
inductive EUploadMimeType where
  | Jpeg
  | Png
  | Gif
  | Webp
deriving DecidableEq

/-- One remote request issued to the Twitter API, with its arguments. -/
inductive RemoteCall where
  | userTimeline (userId : String) (opts : TimelineOptions)
  | singleTweet (tweetId : String)
  | userMentionTimeline (userId : String) (opts : MentionOptions)
  | quote (replyText tweetId : String)
  | reply (replyText tweetId : String)
  | tweetText (text : String)
  | tweetWithMedia (text : String) (media_ids : List String)
  | uploadMedia (bytes : List Nat) (media_type : EUploadMimeType) (media_category : String)
  | me
  | like (loggedUserId tweetId : String)
  | follow (loggedUserId targetUserId : String)
  | unfollow (loggedUserId targetUserId : String)
  | userByUsername (username : String)
  | search (query : String) (max_results : Int)
  | trendsAvailable
  | createList (name : String) (description : Option String) (isPrivate : Bool)
  | addListMember (listId userId : String)
  | removeListMember (listId userId : String)
  | listsOwned (userId : String)
deriving DecidableEq

/-- A remote response carrying a `.data` field (`result.data`). -/
structure RespData where
  data : Value

/-- A remote response whose payload is read as `result.data.data`. -/
structure RespDataData where
  data : RespData

/-- The identity part of the `me()` response that the source reads. -/
structure MeData where
  id : String

/-- The `client.v2.me()` response (`me.data.id` is what the source uses). -/
structure MeResp where
  data : MeData

/-- The `data` object of a like response (`result.data.liked`). -/
structure LikedData where
  liked : Bool

/-- The `client.v2.like` response. -/
structure LikeResp where
  data : LikedData

/-- The behaviour of the remote service: for each verb, either a structured
success response or a thrown error object. -/
structure Oracle where
  userTimeline : String → TimelineOptions → Except Value RespData
  singleTweet : String → Except Value RespData
  userMentionTimeline : String → MentionOptions → Except Value RespData
  quote : String → String → Except Value RespData
  reply : String → String → Except Value RespData
  tweetText : String → Except Value RespData
  tweetWithMedia : String → List String → Except Value RespData
  uploadMedia : List Nat → EUploadMimeType → String → Except Value String
  me : Except Value MeResp
  like : String → String → Except Value LikeResp
  follow : String → String → Except Value RespData
  unfollow : String → String → Except Value RespData
  userByUsername : String → Except Value RespData
  search : String → Int → Except Value RespDataData
  trendsAvailable : Except Value Value
  createList : String → Option String → Bool → Except Value RespData
  addListMember : String → String → Except Value RespData
  removeListMember : String → String → Except Value RespData
  listsOwned : String → Except Value RespDataData

/-- State threaded through one operation run: the service singleton state and
the trace of remote calls issued so far. -/
structure OpState where
  svc : SvcState
  trace : List RemoteCall

/-- The operation monad: reads the oracle, threads `OpState`, and can fail
with a thrown error object. -/
def OpM (α : Type) : Type := Oracle → OpState → Except Value α × OpState

/-- Return a pure value. -/
def OpM.pure {α : Type} (a : α) : OpM α := fun _ s => (Except.ok a, s)

/-- Sequencing (`await` order): a thrown error short-circuits. -/
def OpM.bind {α β : Type} (x : OpM α) (f : α → OpM β) : OpM β := fun o s =>
  match x o s with
  | (Except.ok a, s1) => f a o s1
  | (Except.error e, s1) => (Except.error e, s1)

/-- `this.getClient(config)` inside an operation (per-call variant). -/
def getClientM (config : Config) : OpM TwitterApi := fun _ s =>
  match getClient s.svc config with
  | Except.ok (c, sv) => (Except.ok c, { s with svc := sv })
  | Except.error e => (Except.error e, s)

/-- `this.getClient()` inside an operation (static variant). -/
def staticGetClientM (env : Env) : OpM TwitterApi := fun _ s =>
  match staticGetClient env s.svc with
  | Except.ok (c, sv) => (Except.ok c, { s with svc := sv })
  | Except.error e => (Except.error e, s)

/-- The `try { ... } catch (error) { return error; }` wrapper every service
method uses: a thrown error becomes the returned value. -/
def runCaught (body : OpM Value) : OpM Value := fun o s =>
  match body o s with
  | (Except.ok v, s1) => (Except.ok v, s1)
  | (Except.error e, s1) => (Except.ok e, s1)

/-- Issue `client.v2.userTimeline(userId, opts)`. -/
def callUserTimeline (userId : String) (opts : TimelineOptions) : OpM RespData := fun o s =>
  (o.userTimeline userId opts, { s with trace := s.trace ++ [RemoteCall.userTimeline userId opts] })

/-- Issue `client.v2.singleTweet(tweetId)`. -/
def callSingleTweet (tweetId : String) : OpM RespData := fun o s =>
  (o.singleTweet tweetId, { s with trace := s.trace ++ [RemoteCall.singleTweet tweetId] })

/-- Issue `client.v2.userMentionTimeline(userId, opts)`. -/
def callUserMentionTimeline (userId : String) (opts : MentionOptions) : OpM RespData := fun o s =>
  (o.userMentionTimeline userId opts,
   { s with trace := s.trace ++ [RemoteCall.userMentionTimeline userId opts] })

/-- Issue `client.v2.quote(replyText, tweetId)`. -/
def callQuote (replyText tweetId : String) : OpM RespData := fun o s =>
  (o.quote replyText tweetId, { s with trace := s.trace ++ [RemoteCall.quote replyText tweetId] })

/-- Issue `client.v2.reply(replyText, tweetId)`. -/
def callReply (replyText tweetId : String) : OpM RespData := fun o s =>
  (o.reply replyText tweetId, { s with trace := s.trace ++ [RemoteCall.reply replyText tweetId] })

/-- Issue `client.v2.tweet(text)` (text-only form). -/
def callTweetText (text : String) : OpM RespData := fun o s =>
  (o.tweetText text, { s with trace := s.trace ++ [RemoteCall.tweetText text] })

/-- Issue `client.v2.tweet({ text, media: { media_ids } })`. -/
def callTweetWithMedia (text : String) (media_ids : List String) : OpM RespData := fun o s =>
  (o.tweetWithMedia text media_ids,
   { s with trace := s.trace ++ [RemoteCall.tweetWithMedia text media_ids] })

/-- Issue `client.v2.uploadMedia(buffer, { media_type, media_category })`. -/
def callUploadMedia (bytes : List Nat) (media_type : EUploadMimeType)
    (media_category : String) : OpM String := fun o s =>
  (o.uploadMedia bytes media_type media_category,
   { s with trace := s.trace ++ [RemoteCall.uploadMedia bytes media_type media_category] })

/-- Issue `client.v2.me()`. -/
def callMe : OpM MeResp := fun o s =>
  (o.me, { s with trace := s.trace ++ [RemoteCall.me] })

/-- Issue `client.v2.like(loggedUserId, tweetId)`. -/
def callLike (loggedUserId tweetId : String) : OpM LikeResp := fun o s =>
  (o.like loggedUserId tweetId, { s with trace := s.trace ++ [RemoteCall.like loggedUserId tweetId] })

/-- Issue `client.v2.follow(loggedUserId, targetUserId)`. -/
def callFollow (loggedUserId targetUserId : String) : OpM RespData := fun o s =>
  (o.follow loggedUserId targetUserId,
   { s with trace := s.trace ++ [RemoteCall.follow loggedUserId targetUserId] })

/-- Issue `client.v2.unfollow(loggedUserId, targetUserId)`. -/
def callUnfollow (loggedUserId targetUserId : String) : OpM RespData := fun o s =>
  (o.unfollow loggedUserId targetUserId,
   { s with trace := s.trace ++ [RemoteCall.unfollow loggedUserId targetUserId] })

/-- Issue `client.v2.userByUsername(username)`. -/
def callUserByUsername (username : String) : OpM RespData := fun o s =>
  (o.userByUsername username, { s with trace := s.trace ++ [RemoteCall.userByUsername username] })

/-- Issue `client.v2.search(query, { max_results })`. -/
def callSearch (query : String) (max_results : Int) : OpM RespDataData := fun o s =>
  (o.search query max_results, { s with trace := s.trace ++ [RemoteCall.search query max_results] })

/-- Issue `client.v1.trendsAvailable()`. -/
def callTrendsAvailable : OpM Value := fun o s =>
  (o.trendsAvailable, { s with trace := s.trace ++ [RemoteCall.trendsAvailable] })

/-- Issue `client.v2.createList({ name, description, private })`. -/
def callCreateList (name : String) (description : Option String) (isPrivate : Bool) :
    OpM RespData := fun o s =>
  (o.createList name description isPrivate,
   { s with trace := s.trace ++ [RemoteCall.createList name description isPrivate] })

/-- Issue `client.v2.addListMember(listId, userId)`. -/
def callAddListMember (listId userId : String) : OpM RespData := fun o s =>
  (o.addListMember listId userId,
   { s with trace := s.trace ++ [RemoteCall.addListMember listId userId] })

/-- Issue `client.v2.removeListMember(listId, userId)`. -/
def callRemoveListMember (listId userId : String) : OpM RespData := fun o s =>
  (o.removeListMember listId userId,
   { s with trace := s.trace ++ [RemoteCall.removeListMember listId userId] })

/-- Issue `client.v2.listsOwned(userId)`. -/
def callListsOwned (userId : String) : OpM RespDataData := fun o s =>
  (o.listsOwned userId, { s with trace := s.trace ++ [RemoteCall.listsOwned userId] })

/-! ### Base64 decoding and data-URI handling (used by postTweet) -/

/-- Drop `p` from the front of `l`, or fail if `p` is not a prefix. -/
def dropPfx : List Char → List Char → Option (List Char)
  | [], l => some l
  | _ :: _, [] => none
  | p :: ps, c :: cs => if p = c then dropPfx ps cs else none

/-- Does `hay` contain `needle` as a contiguous substring (JS `includes`)? -/
def strIncludesAux (needle : List Char) : List Char → Bool
  | [] => (dropPfx needle []).isSome
  | c :: rest => (dropPfx needle (c :: rest)).isSome || strIncludesAux needle rest

/-- JS `hay.includes(needle)`. -/
def strIncludes (needle hay : String) : Bool := strIncludesAux needle.data hay.data

/-- A regex `\w` character: ASCII letter, digit, or underscore. -/
def isWordChar (c : Char) : Bool := c.isAlpha || c.isDigit || c = '_'

/-- `imageBase64.replace(/^data:image\/\w+;base64,/, "")` on the char list:
strip one anchored data-URI header if present, else leave the list unchanged. -/
def stripDataUriL (l : List Char) : List Char :=
  match dropPfx "data:image/".data l with
  | none => l
  | some t =>
    match t.takeWhile isWordChar, t.dropWhile isWordChar with
    | [], _ => l
    | _ :: _, r =>
      match dropPfx ";base64,".data r with
      | none => l
      | some rest => rest

/-- The base64 value of one alphabet character (others are skipped, as Node's
lenient decoder skips non-alphabet characters such as `=` padding). -/
def b64Val (c : Char) : Option Nat :=
  if 'A' ≤ c ∧ c ≤ 'Z' then some (c.toNat - 'A'.toNat)
  else if 'a' ≤ c ∧ c ≤ 'z' then some (c.toNat - 'a'.toNat + 26)
  else if '0' ≤ c ∧ c ≤ '9' then some (c.toNat - '0'.toNat + 52)
  else if c = '+' then some 62
  else if c = '/' then some 63
  else none

/-- Reassemble bytes from the 6-bit groups: 4 groups give 3 bytes, a trailing
3 give 2 bytes, a trailing 2 give 1 byte. -/
def b64Groups : List Nat → List Nat
  | a :: b :: c :: d :: rest =>
    (a * 4 + b / 16) :: ((b % 16) * 16 + c / 4) :: ((c % 4) * 64 + d) :: b64Groups rest
  | [a, b, c] => [a * 4 + b / 16, (b % 16) * 16 + c / 4]
  | [a, b] => [a * 4 + b / 16]
  | _ => []

/-- `Buffer.from(chars, "base64")`: the decoded byte list. -/
def base64DecodeL (l : List Char) : List Nat := b64Groups (l.filterMap b64Val)

/-! ### The TwitterService operations (per-call-credential variant) -/

/-- JS `x || d` on an optional number: `undefined` and `0` are falsy. -/
def jsOrInt : Option Int → Int → Int
  | none, d => d
  | some v, d => if v = 0 then d else v

namespace TwitterService

/-- Body of `getUserTweets` (inside its `try`): resolve the client and fetch
the user timeline — the `exclude` default is applied with `??`, `max_results`
is the literal `50`, and the `maxResults` argument is not used — then return
the pre-serialized JSON string. -/
def getUserTweetsBody (config : Config) (userId : String) (paginationToken : Option String)
    (exclude : Option (List Excl)) (maxResults : Option Int) : OpM Value :=
  OpM.bind (getClientM config) fun _client =>
  OpM.bind (callUserTimeline userId
      ⟨exclude.getD [Excl.retweets, Excl.replies], 50, paginationToken⟩) fun tweets =>
  OpM.pure (Value.str (stringifyCompact (Value.obj
    [("result", tweets.data), ("message", Value.str "Tweets fetched successfully")])))

/-- `getUserTweets` with its catch-all returning the error. -/
def getUserTweets (config : Config) (userId : String) (paginationToken : Option String)
    (exclude : Option (List Excl)) (maxResults : Option Int) : OpM Value :=
  runCaught (getUserTweetsBody config userId paginationToken exclude maxResults)

/-- Body of `getTweet`. -/
def getTweetBody (config : Config) (tweetId : String) : OpM Value :=
  OpM.bind (getClientM config) fun _client =>
  OpM.bind (callSingleTweet tweetId) fun result =>
  OpM.pure result.data

/-- `getTweet` with its catch-all. -/
def getTweet (config : Config) (tweetId : String) : OpM Value :=
  runCaught (getTweetBody config tweetId)

/-- Body of `getUserMentionTimeline`: `max_results: maxResults || 10`. -/
def getUserMentionTimelineBody (config : Config) (userId : String)
    (paginationToken : Option String) (maxResults : Option Int) : OpM Value :=
  OpM.bind (getClientM config) fun _client =>
  OpM.bind (callUserMentionTimeline userId ⟨jsOrInt maxResults 10, paginationToken⟩) fun mentions =>
  OpM.pure mentions.data

/-- `getUserMentionTimeline` with its catch-all. -/
def getUserMentionTimeline (config : Config) (userId : String)
    (paginationToken : Option String) (maxResults : Option Int) : OpM Value :=
  runCaught (getUserMentionTimelineBody config userId paginationToken maxResults)

/-- Body of `quoteAndComment`. -/
def quoteAndCommentBody (config : Config) (tweetId replyText : String) : OpM Value :=
  OpM.bind (getClientM config) fun _client =>
  OpM.bind (callQuote replyText tweetId) fun quote =>
  OpM.pure quote.data

/-- `quoteAndComment` with its catch-all. -/
def quoteAndComment (config : Config) (tweetId replyText : String) : OpM Value :=
  runCaught (quoteAndCommentBody config tweetId replyText)

/-- Body of `replyToTweet`. -/
def replyToTweetBody (config : Config) (tweetId replyText : String) : OpM Value :=
  OpM.bind (getClientM config) fun _client =>
  OpM.bind (callReply replyText tweetId) fun reply =>
  OpM.pure reply.data

/-- `replyToTweet` with its catch-all. -/
def replyToTweet (config : Config) (tweetId replyText : String) : OpM Value :=
  runCaught (replyToTweetBody config tweetId replyText)

/-- Body of `postTweet`: when `imageBase64` is truthy, strip the data-URI
header, base64-decode, infer the MIME type by substring tests (default Jpeg),
upload the media, then tweet referencing the returned media id; otherwise
post a text-only tweet. -/
def postTweetBody (config : Config) (text : String) (imageBase64 : Option String) : OpM Value :=
  OpM.bind (getClientM config) fun _client =>
  if optStrTruthy imageBase64 then
    let img := imageBase64.getD ""
    let buffer := base64DecodeL (stripDataUriL img.data)
    let mimeType :=
      if strIncludes "data:image/png" img then EUploadMimeType.Png
      else if strIncludes "data:image/gif" img then EUploadMimeType.Gif
      else if strIncludes "data:image/webp" img then EUploadMimeType.Webp
      else EUploadMimeType.Jpeg
    OpM.bind (callUploadMedia buffer mimeType "tweet_image") fun mediaId =>
    OpM.bind (callTweetWithMedia text [mediaId]) fun tweet =>
    OpM.pure tweet.data
  else
    OpM.bind (callTweetText text) fun tweet =>
    OpM.pure tweet.data

/-- `postTweet` with its catch-all. -/
def postTweet (config : Config) (text : String) (imageBase64 : Option String) : OpM Value :=
  runCaught (postTweetBody config text imageBase64)

/-- Body of `likeTweet`: resolve the authenticated user first, then like. -/
def likeTweetBody (config : Config) (tweetId : String) : OpM Value :=
  OpM.bind (getClientM config) fun _client =>
  OpM.bind callMe fun me =>
  OpM.bind (callLike me.data.id tweetId) fun result =>
  OpM.pure (Value.obj [("liked", Value.bool result.data.liked)])

/-- `likeTweet` with its catch-all. -/
def likeTweet (config : Config) (tweetId : String) : OpM Value :=
  runCaught (likeTweetBody config tweetId)

/-- Body of `followUser`: resolve the authenticated user first, then follow. -/
def followUserBody (config : Config) (targetUserId : String) : OpM Value :=
  OpM.bind (getClientM config) fun _client =>
  OpM.bind callMe fun me =>
  OpM.bind (callFollow me.data.id targetUserId) fun result =>
  OpM.pure result.data

/-- `followUser` with its catch-all. -/
def followUser (config : Config) (targetUserId : String) : OpM Value :=
  runCaught (followUserBody config targetUserId)

/-- Body of `unfollowUser`: resolve the authenticated user first, then
unfollow. -/
def unfollowUserBody (config : Config) (targetUserId : String) : OpM Value :=
  OpM.bind (getClientM config) fun _client =>
  OpM.bind callMe fun me =>
  OpM.bind (callUnfollow me.data.id targetUserId) fun result =>
  OpM.pure result.data

/-- `unfollowUser` with its catch-all. -/
def unfollowUser (config : Config) (targetUserId : String) : OpM Value :=
  runCaught (unfollowUserBody config targetUserId)

/-- Body of `getUserByUsername`. -/
def getUserByUsernameBody (config : Config) (username : String) : OpM Value :=
  OpM.bind (getClientM config) fun _client =>
  OpM.bind (callUserByUsername username) fun result =>
  OpM.pure result.data

/-- `getUserByUsername` with its catch-all. -/
def getUserByUsername (config : Config) (username : String) : OpM Value :=
  runCaught (getUserByUsernameBody config username)

/-- Body of `searchTweets` (`maxResults: number = 10` default parameter). -/
def searchTweetsBody (config : Config) (query : String) (maxResults : Option Int) : OpM Value :=
  OpM.bind (getClientM config) fun _client =>
  OpM.bind (callSearch query (maxResults.getD 10)) fun result =>
  OpM.pure result.data.data

/-- `searchTweets` with its catch-all. -/
def searchTweets (config : Config) (query : String) (maxResults : Option Int) : OpM Value :=
  runCaught (searchTweetsBody config query maxResults)

/-- Body of `getTrendingTopics`: the `woeid` parameter is accepted but not
used; the operation always calls `trendsAvailable()`. -/
def getTrendingTopicsBody (config : Config) (woeid : Option Int) : OpM Value :=
  OpM.bind (getClientM config) fun _client =>
  OpM.bind callTrendsAvailable fun result =>
  OpM.pure result

/-- `getTrendingTopics` with its catch-all. -/
def getTrendingTopics (config : Config) (woeid : Option Int) : OpM Value :=
  runCaught (getTrendingTopicsBody config woeid)

/-- Body of `createList` (`isPrivate: boolean = false` default parameter). -/
def createListBody (config : Config) (name : String) (description : Option String)
    (isPrivate : Option Bool) : OpM Value :=
  OpM.bind (getClientM config) fun _client =>
  OpM.bind (callCreateList name description (isPrivate.getD false)) fun result =>
  OpM.pure result.data

/-- `createList` with its catch-all. -/
def createList (config : Config) (name : String) (description : Option String)
    (isPrivate : Option Bool) : OpM Value :=
  runCaught (createListBody config name description isPrivate)

/-- Body of `addListMember`. -/
def addListMemberBody (config : Config) (listId userId : String) : OpM Value :=
  OpM.bind (getClientM config) fun _client =>
  OpM.bind (callAddListMember listId userId) fun result =>
  OpM.pure result.data

/-- `addListMember` with its catch-all. -/
def addListMember (config : Config) (listId userId : String) : OpM Value :=
  runCaught (addListMemberBody config listId userId)

/-- Body of `removeListMember`. -/
def removeListMemberBody (config : Config) (listId userId : String) : OpM Value :=
  OpM.bind (getClientM config) fun _client =>
  OpM.bind (callRemoveListMember listId userId) fun result =>
  OpM.pure result.data

/-- `removeListMember` with its catch-all. -/
def removeListMember (config : Config) (listId userId : String) : OpM Value :=
  runCaught (removeListMemberBody config listId userId)

/-- Body of `getOwnedLists`: resolve the authenticated user first, then list
the lists that user owns. -/
def getOwnedListsBody (config : Config) : OpM Value :=
  OpM.bind (getClientM config) fun _client =>
  OpM.bind callMe fun me =>
  OpM.bind (callListsOwned me.data.id) fun result =>
  OpM.pure result.data.data

/-- `getOwnedLists` with its catch-all. -/
def getOwnedLists (config : Config) : OpM Value :=
  runCaught (getOwnedListsBody config)

end TwitterService

/-! ### Static-credential variant of getUserTweets (exclude defaults to
`["retweets"]` only) -/

namespace StaticService

/-- Body of the static-variant `getUserTweets`: same shape as the per-call
variant, but the client comes from the environment-backed cached `getClient`
and the `exclude` default is `["retweets"]`. -/
def getUserTweetsBody (env : Env) (userId : String) (paginationToken : Option String)
    (exclude : Option (List Excl)) (maxResults : Option Int) : OpM Value :=
  OpM.bind (staticGetClientM env) fun _client =>
  OpM.bind (callUserTimeline userId
      ⟨exclude.getD [Excl.retweets], 50, paginationToken⟩) fun tweets =>
  OpM.pure (Value.str (stringifyCompact (Value.obj
    [("result", tweets.data), ("message", Value.str "Tweets fetched successfully")])))

/-- Static-variant `getUserTweets` with its catch-all. -/
def getUserTweets (env : Env) (userId : String) (paginationToken : Option String)
    (exclude : Option (List Excl)) (maxResults : Option Int) : OpM Value :=
  runCaught (getUserTweetsBody env userId paginationToken exclude maxResults)

end StaticService

/-! ### The tool dispatcher (per-call variant, src/index.ts handlers) -/

/-- One inbound tool call, as validated by the zod parameter schemas: optional
fields that carry a zod `.default(...)` are still `Option` here, and the
dispatcher applies the declared default exactly where zod does. -/
inductive ToolCall where
  | get_tweets_by_userid (config : Option Config) (userId : String)
      (paginationToken : Option String) (exclude : Option (List Excl)) (maxResults : Option Int)
  | get_tweet_by_id (config : Option Config) (tweetId : String)
  | get_user_mentions (config : Option Config) (userId : String)
      (paginationToken : Option String) (maxResults : Option Int)
  | quote_tweet (config : Option Config) (tweetId replyText : String)
  | reply_to_tweet (config : Option Config) (tweetId replyText : String)
  | post_tweet (config : Option Config) (text : String) (imageBase64 : Option String)
  | like_tweet (config : Option Config) (tweetId : String)
  | follow_user (config : Option Config) (targetUserId : String)
  | unfollow_user (config : Option Config) (targetUserId : String)
  | get_user_by_username (config : Option Config) (username : String)
  | search_tweets (config : Option Config) (query : String) (maxResults : Option Int)
  | get_trending_topics (config : Option Config) (woeid : Option Int)
  | create_list (config : Option Config) (name : String) (description : Option String)
      (isPrivate : Option Bool)
  | add_list_member (config : Option Config) (listId userId : String)
  | remove_list_member (config : Option Config) (listId userId : String)
  | get_owned_lists (config : Option Config)

/-- `config || {}` in every handler. -/
def orEmpty (c : Option Config) : Config := c.getD ⟨none, none⟩

/-- The credential configuration a tool call carries. -/
def ToolCall.config : ToolCall → Option Config
  | ToolCall.get_tweets_by_userid cfg _ _ _ _ => cfg
  | ToolCall.get_tweet_by_id cfg _ => cfg
  | ToolCall.get_user_mentions cfg _ _ _ => cfg
  | ToolCall.quote_tweet cfg _ _ => cfg
  | ToolCall.reply_to_tweet cfg _ _ => cfg
  | ToolCall.post_tweet cfg _ _ => cfg
  | ToolCall.like_tweet cfg _ => cfg
  | ToolCall.follow_user cfg _ => cfg
  | ToolCall.unfollow_user cfg _ => cfg
  | ToolCall.get_user_by_username cfg _ => cfg
  | ToolCall.search_tweets cfg _ _ => cfg
  | ToolCall.get_trending_topics cfg _ => cfg
  | ToolCall.create_list cfg _ _ _ => cfg
  | ToolCall.add_list_member cfg _ _ => cfg
  | ToolCall.remove_list_member cfg _ _ => cfg
  | ToolCall.get_owned_lists cfg => cfg

/-- The service invocation each handler performs, with zod defaults applied
(`maxResults` 10, `woeid` 1, `isPrivate` false) before the service is called. -/
def runTool : ToolCall → OpM Value
  | ToolCall.get_tweets_by_userid cfg userId pt ex mr =>
    TwitterService.getUserTweets (orEmpty cfg) userId pt ex (some (mr.getD 10))
  | ToolCall.get_tweet_by_id cfg tweetId =>
    TwitterService.getTweet (orEmpty cfg) tweetId
  | ToolCall.get_user_mentions cfg userId pt mr =>
    TwitterService.getUserMentionTimeline (orEmpty cfg) userId pt (some (mr.getD 10))
  | ToolCall.quote_tweet cfg tweetId replyText =>
    TwitterService.quoteAndComment (orEmpty cfg) tweetId replyText
  | ToolCall.reply_to_tweet cfg tweetId replyText =>
    TwitterService.replyToTweet (orEmpty cfg) tweetId replyText
  | ToolCall.post_tweet cfg text imageBase64 =>
    TwitterService.postTweet (orEmpty cfg) text imageBase64
  | ToolCall.like_tweet cfg tweetId =>
    TwitterService.likeTweet (orEmpty cfg) tweetId
  | ToolCall.follow_user cfg targetUserId =>
    TwitterService.followUser (orEmpty cfg) targetUserId
  | ToolCall.unfollow_user cfg targetUserId =>
    TwitterService.unfollowUser (orEmpty cfg) targetUserId
  | ToolCall.get_user_by_username cfg username =>
    TwitterService.getUserByUsername (orEmpty cfg) username
  | ToolCall.search_tweets cfg query mr =>
    TwitterService.searchTweets (orEmpty cfg) query (some (mr.getD 10))
  | ToolCall.get_trending_topics cfg woeid =>
    TwitterService.getTrendingTopics (orEmpty cfg) (some (woeid.getD 1))
  | ToolCall.create_list cfg name description isPrivate =>
    TwitterService.createList (orEmpty cfg) name description (some (isPrivate.getD false))
  | ToolCall.add_list_member cfg listId userId =>
    TwitterService.addListMember (orEmpty cfg) listId userId
  | ToolCall.remove_list_member cfg listId userId =>
    TwitterService.removeListMember (orEmpty cfg) listId userId
  | ToolCall.get_owned_lists cfg =>
    TwitterService.getOwnedLists (orEmpty cfg)

/-- The corresponding uncaught operation body for each tool call (the code
inside the service method's `try`). -/
def toolBody : ToolCall → OpM Value
  | ToolCall.get_tweets_by_userid cfg userId pt ex mr =>
    TwitterService.getUserTweetsBody (orEmpty cfg) userId pt ex (some (mr.getD 10))
  | ToolCall.get_tweet_by_id cfg tweetId =>
    TwitterService.getTweetBody (orEmpty cfg) tweetId
  | ToolCall.get_user_mentions cfg userId pt mr =>
    TwitterService.getUserMentionTimelineBody (orEmpty cfg) userId pt (some (mr.getD 10))
  | ToolCall.quote_tweet cfg tweetId replyText =>
    TwitterService.quoteAndCommentBody (orEmpty cfg) tweetId replyText
  | ToolCall.reply_to_tweet cfg tweetId replyText =>
    TwitterService.replyToTweetBody (orEmpty cfg) tweetId replyText
  | ToolCall.post_tweet cfg text imageBase64 =>
    TwitterService.postTweetBody (orEmpty cfg) text imageBase64
  | ToolCall.like_tweet cfg tweetId =>
    TwitterService.likeTweetBody (orEmpty cfg) tweetId
  | ToolCall.follow_user cfg targetUserId =>
    TwitterService.followUserBody (orEmpty cfg) targetUserId
  | ToolCall.unfollow_user cfg targetUserId =>
    TwitterService.unfollowUserBody (orEmpty cfg) targetUserId
  | ToolCall.get_user_by_username cfg username =>
    TwitterService.getUserByUsernameBody (orEmpty cfg) username
  | ToolCall.search_tweets cfg query mr =>
    TwitterService.searchTweetsBody (orEmpty cfg) query (some (mr.getD 10))
  | ToolCall.get_trending_topics cfg woeid =>
    TwitterService.getTrendingTopicsBody (orEmpty cfg) (some (woeid.getD 1))
  | ToolCall.create_list cfg name description isPrivate =>
    TwitterService.createListBody (orEmpty cfg) name description (some (isPrivate.getD false))
  | ToolCall.add_list_member cfg listId userId =>
    TwitterService.addListMemberBody (orEmpty cfg) listId userId
  | ToolCall.remove_list_member cfg listId userId =>
    TwitterService.removeListMemberBody (orEmpty cfg) listId userId
  | ToolCall.get_owned_lists cfg =>
    TwitterService.getOwnedListsBody (orEmpty cfg)

/-- One text block of the response (`{ type: "text", text }`). -/
structure TextContent where
  type : String
  text : String
deriving DecidableEq

/-- The uniform response wrapper every handler returns. -/
structure ResponseEnvelope where
  content : List TextContent
deriving DecidableEq

/-- `{ content: [{ type: "text", text: JSON.stringify(v, null, 2) }] }`. -/
def mkEnvelope (v : Value) : ResponseEnvelope :=
  ⟨[⟨"text", stringifyPretty v⟩]⟩

/-- What one tool invocation yields at the transport boundary: a response
envelope, or an exception escaping the handler. -/
inductive DispatchOutcome where
  | envelope (env : ResponseEnvelope)
  | escaped (err : Value)

/-- The dispatcher: run the handler's service call and wrap the awaited value
in the response envelope; a rejected promise would escape instead. -/
def dispatch (call : ToolCall) : Oracle → OpState → DispatchOutcome × OpState := fun o s =>
  match runTool call o s with
  | (Except.ok v, s1) => (DispatchOutcome.envelope (mkEnvelope v), s1)
  | (Except.error e, s1) => (DispatchOutcome.escaped e, s1)

/-! ### Concrete inputs used by witnesses and counterexamples -/

/-- A per-call configuration with a token. -/
def cfgA : Config := ⟨some "token-a", none⟩

/-- A per-call configuration with the token absent. -/
def cfgNoTok : Config := ⟨none, none⟩

/-- The initial service/trace state. -/
def st0 : OpState := ⟨⟨none, 0, 0⟩, []⟩

/-- A fully populated static environment. -/
def envA : Env := ⟨some "k", some "ks", some "at", some "ats"⟩

/-- A deterministic remote-service behaviour: `singleTweet` throws a string
error (for the error-passthrough witnesses); everything else succeeds with
small concrete payloads. -/
def oracleA : Oracle where
  userTimeline := fun _ _ => Except.ok ⟨Value.arr []⟩
  singleTweet := fun _ => Except.error (Value.str "boom")
  userMentionTimeline := fun _ _ => Except.ok ⟨Value.null⟩
  quote := fun _ _ => Except.ok ⟨Value.null⟩
  reply := fun _ _ => Except.ok ⟨Value.null⟩
  tweetText := fun _ => Except.ok ⟨Value.null⟩
  tweetWithMedia := fun _ _ => Except.ok ⟨Value.str "posted"⟩
  uploadMedia := fun _ _ _ => Except.ok "777"
  me := Except.ok ⟨⟨"me-1"⟩⟩
  like := fun _ _ => Except.ok ⟨⟨true⟩⟩
  follow := fun _ _ => Except.ok ⟨Value.bool true⟩
  unfollow := fun _ _ => Except.ok ⟨Value.bool false⟩
  userByUsername := fun _ => Except.ok ⟨Value.null⟩
  search := fun _ _ => Except.ok ⟨⟨Value.arr []⟩⟩
  trendsAvailable := Except.ok (Value.arr [Value.str "w"])
  createList := fun _ _ _ => Except.ok ⟨Value.null⟩
  addListMember := fun _ _ => Except.ok ⟨Value.null⟩
  removeListMember := fun _ _ => Except.ok ⟨Value.null⟩
  listsOwned := fun _ => Except.ok ⟨⟨Value.arr []⟩⟩

/-- The client `getClient st0.svc cfgA` constructs. -/
def clientA : TwitterApi := ⟨0, ClientAuth.bearer "token-a"⟩

/-- The state after one successful per-call client resolution from `st0`. -/
def svc1 : SvcState := ⟨some clientA, 1, 1⟩

/-- The pre-serialized JSON string `getUserTweets` returns for the empty
timeline `oracleA` serves. -/
def timelinePayload : String :=
  stringifyCompact (Value.obj
    [("result", Value.arr []), ("message", Value.str "Tweets fetched successfully")])

/-- The PNG data-URI header the post-tweet claim is about. -/
def pngHeader : List Char := "data:image/png;base64,".data

/-- A concrete PNG data-URI image payload (base64 body `QUJD` = bytes of
`ABC`). -/
def imgPngA : String := "data:image/png;base64,QUJD"

/-- The static-variant client `staticGetClient envA` constructs from a fresh
state. -/
def staticClientA : TwitterApi := ⟨0, ClientAuth.oauth1 "k" "ks" "at" "ats"⟩

/-- The client a second per-call resolution (after `clientA`) constructs. -/
def clientB : TwitterApi := ⟨1, ClientAuth.bearer "token-a"⟩

/-! ## Helper lemmas -/

theorem dropPfx_append (p l : List Char) : dropPfx p (p ++ l) = some l := by
  induction p with
  | nil => rfl
  | cons c cs ih => simp [dropPfx, ih]

theorem strIncludes_png (img : String) (rest : List Char)
    (himg : img.data = pngHeader ++ rest) :
    strIncludes "data:image/png" img = true := by
  unfold strIncludes
  rw [himg]
  rfl

theorem stripDataUriL_png (rest : List Char) :
    stripDataUriL (pngHeader ++ rest) = rest := rfl

theorem strTruthy_png (img : String) (rest : List Char)
    (himg : img.data = pngHeader ++ rest) :
    strTruthy img = true := by
  unfold strTruthy
  rw [himg]
  rfl

theorem runTool_eq_caught (call : ToolCall) : runTool call = runCaught (toolBody call) := by
  cases call <;> rfl

/-! ## Claim theorems -/

/-- C2: for every tool call, the dispatcher always yields a response envelope
(no exception escapes), and when the operation body throws an error during the
remote interaction, that error object becomes the response payload verbatim. -/
theorem dispatch_no_escape_error_verbatim (call : ToolCall) (o : Oracle) (s : OpState) :
    (∃ env, (dispatch call o s).1 = DispatchOutcome.envelope env) ∧
    (∀ e s1, toolBody call o s = (Except.error e, s1) →
      dispatch call o s = (DispatchOutcome.envelope (mkEnvelope e), s1)) := by
  have h := runTool_eq_caught call
  constructor
  · rcases hb : toolBody call o s with ⟨r, s1⟩
    cases r with
    | ok v => exact ⟨mkEnvelope v, by simp [dispatch, h, runCaught, hb]⟩
    | error e => exact ⟨mkEnvelope e, by simp [dispatch, h, runCaught, hb]⟩
  · intro e s1 hb
    simp [dispatch, h, runCaught, hb]

/-- C2 witness: `get_tweet_by_id` against `oracleA`, whose `singleTweet`
throws the string error `"boom"`: the dispatcher returns an envelope whose
payload is exactly that error. -/
theorem dispatch_no_escape_error_verbatim_witness :
    dispatch (ToolCall.get_tweet_by_id (some cfgA) "42") oracleA st0 =
      (DispatchOutcome.envelope (mkEnvelope (Value.str "boom")),
        ⟨svc1, [RemoteCall.singleTweet "42"]⟩) :=
  (dispatch_no_escape_error_verbatim (ToolCall.get_tweet_by_id (some cfgA) "42") oracleA st0).2
    (Value.str "boom") ⟨svc1, [RemoteCall.singleTweet "42"]⟩ (by rfl)

/-- C9: `get_trending_topics` does not depend on `woeid`: two calls differing
only in `woeid` dispatch identically, and (with a valid token) the one remote
request issued is `trendsAvailable` (the full list of locations with trends
available). -/
theorem trending_topics_ignores_woeid (cfg : Option Config) (w1 w2 : Option Int)
    (o : Oracle) (s : OpState) :
    dispatch (ToolCall.get_trending_topics cfg w1) o s =
      dispatch (ToolCall.get_trending_topics cfg w2) o s ∧
    (optStrTruthy (orEmpty cfg).accessToken = true →
      (dispatch (ToolCall.get_trending_topics cfg w1) o s).2.trace =
        s.trace ++ [RemoteCall.trendsAvailable]) := by
  constructor
  · rfl
  · intro h
    cases htr : o.trendsAvailable <;>
      simp [dispatch, runTool, TwitterService.getTrendingTopics,
        TwitterService.getTrendingTopicsBody, runCaught, OpM.bind, OpM.pure,
        getClientM, getClient, h, callTrendsAvailable, htr]

/-- C9 witness: concrete woeids 5 and 99 dispatch identically and issue the
single `trendsAvailable` request. -/
theorem trending_topics_ignores_woeid_witness :
    dispatch (ToolCall.get_trending_topics (some cfgA) (some 5)) oracleA st0 =
      dispatch (ToolCall.get_trending_topics (some cfgA) (some 99)) oracleA st0 ∧
    (dispatch (ToolCall.get_trending_topics (some cfgA) (some 5)) oracleA st0).2.trace =
      [] ++ [RemoteCall.trendsAvailable] :=
  ⟨(trending_topics_ignores_woeid (some cfgA) (some 5) (some 99) oracleA st0).1,
   (trending_topics_ignores_woeid (some cfgA) (some 5) (some 99) oracleA st0).2 (by rfl)⟩

/-- C10: `getUserMentionTimeline` with `maxResults = 0` behaves exactly as if
the parameter were omitted — `maxResults || 10` replaces the falsy zero, so
the remote mention-timeline call carries `max_results: 10`. -/
theorem mention_zero_maxResults_defaults (cfg : Config) (userId : String)
    (pt : Option String) (o : Oracle) (s : OpState) :
    TwitterService.getUserMentionTimeline cfg userId pt (some 0) o s =
      TwitterService.getUserMentionTimeline cfg userId pt none o s ∧
    (optStrTruthy cfg.accessToken = true →
      (TwitterService.getUserMentionTimeline cfg userId pt (some 0) o s).2.trace =
        s.trace ++ [RemoteCall.userMentionTimeline userId ⟨10, pt⟩]) := by
  constructor
  · simp [TwitterService.getUserMentionTimeline, TwitterService.getUserMentionTimelineBody,
      jsOrInt]
  · intro h
    cases hm : o.userMentionTimeline userId ⟨10, pt⟩ <;>
      simp [TwitterService.getUserMentionTimeline, TwitterService.getUserMentionTimelineBody,
        runCaught, OpM.bind, OpM.pure, getClientM, getClient, h, jsOrInt,
        callUserMentionTimeline, hm]

/-- C10 witness: concrete call with `maxResults = 0`. -/
theorem mention_zero_maxResults_defaults_witness :
    TwitterService.getUserMentionTimeline cfgA "u7" none (some 0) oracleA st0 =
      TwitterService.getUserMentionTimeline cfgA "u7" none none oracleA st0 ∧
    (TwitterService.getUserMentionTimeline cfgA "u7" none (some 0) oracleA st0).2.trace =
      [] ++ [RemoteCall.userMentionTimeline "u7" ⟨10, none⟩] :=
  ⟨(mention_zero_maxResults_defaults cfgA "u7" none oracleA st0).1,
   (mention_zero_maxResults_defaults cfgA "u7" none oracleA st0).2 (by rfl)⟩

/-- C1 counterexample: with `accessToken` absent, invoking an operation does
not leave the error thrown — the dispatcher still constructs a response
envelope, whose payload is the configuration error. -/
theorem missing_token_envelope_counterexample :
    (dispatch (ToolCall.get_tweet_by_id (some cfgNoTok) "1") oracleA st0).1 =
      DispatchOutcome.envelope (mkEnvelope accessTokenRequired) := rfl

/-- C1 (amended): with `accessToken` absent or empty, every operation fails
before any remote interaction — the state is returned untouched, so the
client constructor is never invoked and no remote call is recorded — but the
configuration error is caught by the operation's catch-all and wrapped in a
normal response envelope rather than escaping. -/
theorem missing_token_caught_before_remote (call : ToolCall) (o : Oracle) (s : OpState)
    (h : optStrTruthy (orEmpty call.config).accessToken = false) :
    dispatch call o s = (DispatchOutcome.envelope (mkEnvelope accessTokenRequired), s) := by
  cases call <;>
    simp only [ToolCall.config] at h <;>
    simp [dispatch, runTool, runCaught, OpM.bind, OpM.pure, getClientM, getClient, h,
      TwitterService.getUserTweets, TwitterService.getUserTweetsBody,
      TwitterService.getTweet, TwitterService.getTweetBody,
      TwitterService.getUserMentionTimeline, TwitterService.getUserMentionTimelineBody,
      TwitterService.quoteAndComment, TwitterService.quoteAndCommentBody,
      TwitterService.replyToTweet, TwitterService.replyToTweetBody,
      TwitterService.postTweet, TwitterService.postTweetBody,
      TwitterService.likeTweet, TwitterService.likeTweetBody,
      TwitterService.followUser, TwitterService.followUserBody,
      TwitterService.unfollowUser, TwitterService.unfollowUserBody,
      TwitterService.getUserByUsername, TwitterService.getUserByUsernameBody,
      TwitterService.searchTweets, TwitterService.searchTweetsBody,
      TwitterService.getTrendingTopics, TwitterService.getTrendingTopicsBody,
      TwitterService.createList, TwitterService.createListBody,
      TwitterService.addListMember, TwitterService.addListMemberBody,
      TwitterService.removeListMember, TwitterService.removeListMemberBody,
      TwitterService.getOwnedLists, TwitterService.getOwnedListsBody]

/-- C1 witness: `post_tweet` with an empty-token config is answered by an
envelope carrying the configuration error, with the state untouched. -/
theorem missing_token_caught_before_remote_witness :
    dispatch (ToolCall.post_tweet (some ⟨some "", none⟩) "hello" none) oracleA st0 =
      (DispatchOutcome.envelope (mkEnvelope accessTokenRequired), st0) :=
  missing_token_caught_before_remote (ToolCall.post_tweet (some ⟨some "", none⟩) "hello" none)
    oracleA st0 (by rfl)

/-- C3: `get_tweets_by_userid` with `maxResults` omitted does not pass the
declared default of 10 to the remote call — `getUserTweets` ignores its
`maxResults` argument and hardcodes `max_results: 50`. -/
theorem getUserTweets_hardcodes_max_results_50 :
    (dispatch (ToolCall.get_tweets_by_userid (some cfgA) "42" none none none)
        oracleA st0).2.trace =
      [RemoteCall.userTimeline "42" ⟨[Excl.retweets, Excl.replies], 50, none⟩] ∧
    (dispatch (ToolCall.get_tweets_by_userid (some cfgA) "42" none none none)
        oracleA st0).2.trace ≠
      [RemoteCall.userTimeline "42" ⟨[Excl.retweets, Excl.replies], 10, none⟩] := by
  constructor
  · rfl
  · decide

/-- C4 counterexample: the timeline operation returns a pre-serialized JSON
string, and the handler still passes it through `JSON.stringify(·, null, 2)`,
so the envelope text is the quoted re-encoding of that string, not the string
itself. -/
theorem string_payload_double_encoded_counterexample :
    (dispatch (ToolCall.get_tweets_by_userid (some cfgA) "u1" none none none)
        oracleA st0).1 =
      DispatchOutcome.envelope (mkEnvelope (Value.str timelinePayload)) ∧
    mkEnvelope (Value.str timelinePayload) ≠
      ResponseEnvelope.mk [⟨"text", timelinePayload⟩] := by
  constructor
  · rfl
  · decide

/-- C4 (amended): the dispatcher serializes every operation result with
`JSON.stringify(result, null, 2)` unconditionally — non-string results are
pretty-printed, and a result that is already a string is re-encoded (quoted
and escaped) rather than passed through unchanged. -/
theorem dispatch_always_pretty_prints (call : ToolCall) (o : Oracle) (s : OpState)
    (v : Value) (s1 : OpState) (h : runTool call o s = (Except.ok v, s1)) :
    dispatch call o s = (DispatchOutcome.envelope ⟨[⟨"text", stringifyPretty v⟩]⟩, s1) := by
  simp [dispatch, h, mkEnvelope]

/-- C4 witness: the successful timeline call's string result is serialized
again by the handler. -/
theorem dispatch_always_pretty_prints_witness :
    dispatch (ToolCall.get_tweets_by_userid (some cfgA) "u1" none none none) oracleA st0 =
      (DispatchOutcome.envelope
        ⟨[⟨"text", stringifyPretty (Value.str timelinePayload)⟩]⟩,
        ⟨svc1, [RemoteCall.userTimeline "u1" ⟨[Excl.retweets, Excl.replies], 50, none⟩]⟩) :=
  dispatch_always_pretty_prints
    (ToolCall.get_tweets_by_userid (some cfgA) "u1" none none none) oracleA st0
    (Value.str timelinePayload)
    ⟨svc1, [RemoteCall.userTimeline "u1" ⟨[Excl.retweets, Excl.replies], 50, none⟩]⟩ (by rfl)

/-- C5: omitting `exclude` applies the declared default: the per-call variant
excludes retweets and replies, the static variant excludes retweets. -/
theorem exclude_default_applied (cfg : Config) (userId : String) (pt : Option String)
    (mr : Option Int) (o : Oracle) (s : OpState) (env : Env) (c : TwitterApi)
    (htok : optStrTruthy cfg.accessToken = true) (hc : s.svc.client = some c) :
    (dispatch (ToolCall.get_tweets_by_userid (some cfg) userId pt none mr) o s).2.trace =
      s.trace ++ [RemoteCall.userTimeline userId ⟨[Excl.retweets, Excl.replies], 50, pt⟩] ∧
    (StaticService.getUserTweets env userId pt none mr o s).2.trace =
      s.trace ++ [RemoteCall.userTimeline userId ⟨[Excl.retweets], 50, pt⟩] := by
  constructor
  · cases ht : o.userTimeline userId ⟨[Excl.retweets, Excl.replies], 50, pt⟩ <;>
      simp [dispatch, runTool, TwitterService.getUserTweets, TwitterService.getUserTweetsBody,
        runCaught, OpM.bind, OpM.pure, getClientM, getClient, orEmpty, htok,
        callUserTimeline, ht]
  · cases ht : o.userTimeline userId ⟨[Excl.retweets], 50, pt⟩ <;>
      simp [StaticService.getUserTweets, StaticService.getUserTweetsBody,
        runCaught, OpM.bind, OpM.pure, staticGetClientM, staticGetClient, hc,
        callUserTimeline, ht]

/-- C5 witness: concrete timeline calls with `exclude` omitted in both
variants, from a state holding a cached static client. -/
theorem exclude_default_applied_witness :
    (dispatch (ToolCall.get_tweets_by_userid (some cfgA) "u1" none none none)
        oracleA ⟨⟨some clientA, 1, 1⟩, []⟩).2.trace =
      [] ++ [RemoteCall.userTimeline "u1" ⟨[Excl.retweets, Excl.replies], 50, none⟩] ∧
    (StaticService.getUserTweets envA "u1" none none none
        oracleA ⟨⟨some clientA, 1, 1⟩, []⟩).2.trace =
      [] ++ [RemoteCall.userTimeline "u1" ⟨[Excl.retweets], 50, none⟩] :=
  exclude_default_applied cfgA "u1" none none oracleA ⟨⟨some clientA, 1, 1⟩, []⟩ envA clientA
    (by rfl) (by rfl)

/-- C6: static mode reuses the cached handle — a resolution from a state whose
`client` field is set returns exactly that handle and leaves the state
unchanged — and a first successful resolution caches the constructed handle;
per-call mode constructs a fresh handle on every resolution, so two sequential
resolutions yield distinct handles. -/
theorem client_caching_modes :
    (∀ env c n k, staticGetClient env ⟨some c, n, k⟩ = Except.ok (c, ⟨some c, n, k⟩)) ∧
    (∀ env st c st1, st.client = none → staticGetClient env st = Except.ok (c, st1) →
      st1.client = some c) ∧
    (∀ st cfg1 cfg2 c1 s1 c2 s2, getClient st cfg1 = Except.ok (c1, s1) →
      getClient s1 cfg2 = Except.ok (c2, s2) → c1 ≠ c2) := by
  refine ⟨fun env c n k => rfl, ?_, ?_⟩
  · intro env st c st1 h0 h1
    rw [staticGetClient, h0] at h1
    split at h1
    · rename_i heq
      exact absurd heq (by simp)
    · split at h1
      · exact absurd h1 (by simp)
      · simp only [Except.ok.injEq, Prod.mk.injEq] at h1
        rw [← h1.2, ← h1.1]
  · intro st cfg1 cfg2 c1 s1 c2 s2 h1 h2
    rw [getClient] at h1 h2
    split at h1
    · exact absurd h1 (by simp)
    · split at h2
      · exact absurd h2 (by simp)
      · simp only [Except.ok.injEq, Prod.mk.injEq] at h1 h2
        intro hc
        have hid1 : c1.id = st.nextId := by rw [← h1.1]
        have hid2 : c2.id = s1.nextId := by rw [← h2.1]
        have hs1 : s1.nextId = st.nextId + 1 := by rw [← h1.2]
        rw [hc, hid2, hs1] at hid1
        omega

/-- C6 witness: concrete cached-reuse, first-resolution caching, and per-call
distinctness instances. -/
theorem client_caching_modes_witness :
    staticGetClient envA ⟨some clientA, 1, 1⟩ = Except.ok (clientA, ⟨some clientA, 1, 1⟩) ∧
    (⟨some staticClientA, 1, 1⟩ : SvcState).client = some staticClientA ∧
    clientA ≠ clientB :=
  ⟨client_caching_modes.1 envA clientA 1 1,
   client_caching_modes.2.1 envA ⟨none, 0, 0⟩ staticClientA ⟨some staticClientA, 1, 1⟩
     rfl (by rfl),
   client_caching_modes.2.2 ⟨none, 0, 0⟩ cfgA cfgA clientA svc1 clientB ⟨some clientB, 2, 2⟩
     (by rfl) (by rfl)⟩

/-- C7: `followUser`, `unfollowUser`, `likeTweet`, and `getOwnedLists` each
issue exactly one preliminary `me()` call and then the primary action, in that
order, and the primary action receives exactly the `me.data.id` value the
preliminary call returned. -/
theorem identity_preliminary_call (cfg : Config) (o : Oracle) (s : OpState) (u : MeResp)
    (targetUserId tweetId : String)
    (htok : optStrTruthy cfg.accessToken = true) (hme : o.me = Except.ok u) :
    (TwitterService.followUser cfg targetUserId o s).2.trace =
      s.trace ++ [RemoteCall.me, RemoteCall.follow u.data.id targetUserId] ∧
    (TwitterService.unfollowUser cfg targetUserId o s).2.trace =
      s.trace ++ [RemoteCall.me, RemoteCall.unfollow u.data.id targetUserId] ∧
    (TwitterService.likeTweet cfg tweetId o s).2.trace =
      s.trace ++ [RemoteCall.me, RemoteCall.like u.data.id tweetId] ∧
    (TwitterService.getOwnedLists cfg o s).2.trace =
      s.trace ++ [RemoteCall.me, RemoteCall.listsOwned u.data.id] := by
  refine ⟨?_, ?_, ?_, ?_⟩
  · cases hf : o.follow u.data.id targetUserId <;>
      simp [TwitterService.followUser, TwitterService.followUserBody, runCaught,
        OpM.bind, OpM.pure, getClientM, getClient, htok, callMe, hme, callFollow, hf]
  · cases hf : o.unfollow u.data.id targetUserId <;>
      simp [TwitterService.unfollowUser, TwitterService.unfollowUserBody, runCaught,
        OpM.bind, OpM.pure, getClientM, getClient, htok, callMe, hme, callUnfollow, hf]
  · cases hf : o.like u.data.id tweetId <;>
      simp [TwitterService.likeTweet, TwitterService.likeTweetBody, runCaught,
        OpM.bind, OpM.pure, getClientM, getClient, htok, callMe, hme, callLike, hf]
  · cases hf : o.listsOwned u.data.id <;>
      simp [TwitterService.getOwnedLists, TwitterService.getOwnedListsBody, runCaught,
        OpM.bind, OpM.pure, getClientM, getClient, htok, callMe, hme, callListsOwned, hf]

/-- C7 witness: concrete runs of the four identity-scoped operations against
`oracleA`, whose `me()` answers with id `me-1`. -/
theorem identity_preliminary_call_witness :
    (TwitterService.followUser cfgA "t9" oracleA st0).2.trace =
      [] ++ [RemoteCall.me, RemoteCall.follow "me-1" "t9"] ∧
    (TwitterService.unfollowUser cfgA "t9" oracleA st0).2.trace =
      [] ++ [RemoteCall.me, RemoteCall.unfollow "me-1" "t9"] ∧
    (TwitterService.likeTweet cfgA "tw3" oracleA st0).2.trace =
      [] ++ [RemoteCall.me, RemoteCall.like "me-1" "tw3"] ∧
    (TwitterService.getOwnedLists cfgA oracleA st0).2.trace =
      [] ++ [RemoteCall.me, RemoteCall.listsOwned "me-1"] :=
  identity_preliminary_call cfgA oracleA st0 ⟨⟨"me-1"⟩⟩ "t9" "tw3" (by rfl) (by rfl)

/-- C8: `postTweet` with an image prefixed `data:image/png;base64,` strips the
data-URI header, base64-decodes the remainder, uploads the decoded bytes
tagged PNG, and then posts the tweet referencing the returned media id — the
plain text-post path is not taken. -/
theorem postTweet_png_media_path (cfg : Config) (text img : String) (rest : List Char)
    (mediaId : String) (o : Oracle) (s : OpState)
    (himg : img.data = pngHeader ++ rest)
    (htok : optStrTruthy cfg.accessToken = true)
    (hup : o.uploadMedia (base64DecodeL rest) EUploadMimeType.Png "tweet_image" =
      Except.ok mediaId) :
    (TwitterService.postTweet cfg text (some img) o s).2.trace =
      s.trace ++
        [RemoteCall.uploadMedia (base64DecodeL rest) EUploadMimeType.Png "tweet_image",
          RemoteCall.tweetWithMedia text [mediaId]] := by
  have htr : optStrTruthy (some img) = true := strTruthy_png img rest himg
  have hinc := strIncludes_png img rest himg
  have hstrip : stripDataUriL img.data = rest := by
    rw [himg]; exact stripDataUriL_png rest
  cases htw : o.tweetWithMedia text [mediaId] <;>
    simp [TwitterService.postTweet, TwitterService.postTweetBody, runCaught, OpM.bind,
      OpM.pure, getClientM, getClient, htok, htr, hinc, hstrip, hup, htw,
      callUploadMedia, callTweetWithMedia, List.append_assoc]

/-- C8 witness: posting with the concrete PNG data-URI `imgPngA` uploads the
decoded bytes as PNG and then tweets with the returned media id `777`. -/
theorem postTweet_png_media_path_witness :
    (TwitterService.postTweet cfgA "hi" (some imgPngA) oracleA st0).2.trace =
      [] ++ [RemoteCall.uploadMedia (base64DecodeL "QUJD".data) EUploadMimeType.Png
          "tweet_image",
        RemoteCall.tweetWithMedia "hi" ["777"]] :=
  postTweet_png_media_path cfgA "hi" imgPngA "QUJD".data "777" oracleA st0
    (by decide) (by rfl) (by rfl)

end XServer
